import Mathlib

/-!
# Shallow embedding of the Blackbird API client (`src/server.py`)

The Python module wraps the remote Blackbird analysis service: it
authenticates (password grant or client-credential grant), caches the
bearer token, submits a resource (text context or image URL), and polls
the status endpoint until a terminal result or an exhausted retry/time
budget.

Modelling conventions:

* JSON values are the inductive `JValue`; Python dicts are association
  lists (`Dict`) with first-key-wins lookup (Python dicts have unique
  keys, so this is exact).
* `time.time()` is an explicit rational parameter `now : ℚ` (the 0.5 s
  safety buffer needs sub-second precision); elapsed time advances only
  through the modelled `asyncio.sleep(check_interval)` calls, i.e. HTTP
  requests themselves are instantaneous in the model.
* Network I/O is an oracle: the polling loop takes `checks : Nat → Dict`
  giving the (decoded, successful) body of the k-th status check, the
  retry combinator takes `attempt : Nat → SubmitOutcome` giving the
  classified outcome of the k-th HTTP request, token refresh takes the
  `Token` the exchange would produce.
* Python exceptions become explicit result constructors
  (`Except`/dedicated sum types).
-/

namespace Blackbird

/-- A JSON value as decoded by `response.json()`. Numbers are modelled as
rationals (the payloads of interest carry decimals such as `0.9`). -/
inductive JValue where
  | jnull : JValue
  | jbool : Bool → JValue
  | jnum : ℚ → JValue
  | jstr : String → JValue
  | jarr : List JValue → JValue
  | jobj : List (String × JValue) → JValue

/-- A Python dict with string keys, as an association list in insertion
order (Python dicts keep unique keys in insertion order). -/
abbrev Dict := List (String × JValue)

/-- Key lookup in a dict (first match; keys are unique in Python dicts). -/
def lookup (d : Dict) (k : String) : Option JValue :=
  match d with
  | [] => none
  | (k', v) :: rest => if k' == k then some v else lookup rest k

/-- Whether a dict has a given key, as a Python mapping pattern tests. -/
def hasKey (d : Dict) (k : String) : Bool :=
  (lookup d k).isSome

/-- `setKey d k v` is the dict literal `{**d, k: v}`: if `k` is already a
key of `d` its value is replaced in place, otherwise `(k, v)` is appended. -/
def setKey (d : Dict) (k : String) (v : JValue) : Dict :=
  if d.any (fun p => p.1 == k) then
    d.map (fun p => if p.1 == k then (k, v) else p)
  else
    d ++ [(k, v)]

/-- The fields of a JSON object, for splatting with `{**v, ...}`. The
Python code only ever splats values that the service returns as objects;
a non-object would raise `TypeError` there, and this model is not applied
to such inputs by any theorem below. -/
def mergeObj : JValue → Dict
  | .jobj d => d
  | _ => []

/-- `isStr v s` holds when the optional JSON value `v` is the string `s`,
as the literal string pattern `{"status": "success"}` tests. -/
def isStr (v : Option JValue) (s : String) : Bool :=
  match v with
  | some (.jstr t) => t == s
  | _ => false

/-! ## Constants (`src/server.py` lines 15-18, 33-35) -/

/-- `BASE_URL = "https://api.blackbird.ai"`. -/
def BASE_URL : String := "https://api.blackbird.ai"

/-- `BLACKBIRD_CONTEXT_MAX_RETRIES = 60`. -/
def BLACKBIRD_CONTEXT_MAX_RETRIES : Nat := 60

/-- `BLACKBIRD_CONTEXT_MAX_TIME = 600`. -/
def BLACKBIRD_CONTEXT_MAX_TIME : ℚ := 600

/-- `BLACKBIRD_CONTEXT_CHECK_INTERVAL = 10`. -/
def BLACKBIRD_CONTEXT_CHECK_INTERVAL : ℚ := 10

/-- `class ResourceType(enum.Enum)`. -/
inductive ResourceType where
  | CONTEXT : ResourceType
  | VISION : ResourceType
deriving DecidableEq

/-- The enum member values: `CONTEXT = "compass/contextChecks"`,
`VISION = "compass/visionAnalyses"`. -/
def ResourceType.value : ResourceType → String
  | .CONTEXT => "compass/contextChecks"
  | .VISION => "compass/visionAnalyses"

/-- The submission URL `f"{BASE_URL}/{resource_type.value}"` used by
`_submit_resource_type`. -/
def submissionUrl (rt : ResourceType) : String :=
  BASE_URL ++ "/" ++ rt.value

/-- The status URL `f"{BASE_URL}/{resource_type.value}/{resource_id}"`
used by `_check_resource_type`. -/
def statusUrl (rt : ResourceType) (resource_id : String) : String :=
  BASE_URL ++ "/" ++ rt.value ++ "/" ++ resource_id

/-! ## Authentication (`BlackbirdApiClient.__init__`, `__new_token`,
`bearer_token`) -/

/-- `@dataclass class Token`. -/
structure Token where
  token : String
  expiration_time : ℚ
deriving DecidableEq

/-- Python truthiness of an optional string argument (`str | None = None`):
`None` and `""` are falsy, any other string truthy. -/
def truthy : Option String → Bool
  | none => false
  | some s => !(s == "")

/-- The branching of `__init__` that selects the credential mode: the
password pair wins when both its components are truthy, else the
client-credential pair, else `None` (the `ValueError` branch). Returns
the auth URL and the form payload (`self._auth_url`, `self._auth_payload`). -/
def initAuthConfig (client_id client_secret username password : Option String) :
    Option (String × List (String × String)) :=
  if truthy username && truthy password then
    some (BASE_URL ++ "/compass/token",
      [("username", username.getD ""),
       ("password", password.getD ""),
       ("grant_type", "password")])
  else if truthy client_id && truthy client_secret then
    some ("https://blackbird-ai.auth.us-west-2.amazoncognito.com/oauth2/token",
      [("client_id", client_id.getD ""),
       ("client_secret", client_secret.getD ""),
       ("grant_type", "client_credentials")])
  else
    none

/-- `__init__`: picks the credential mode, then performs exactly one
credential exchange (`self.token = self.__new_token()`); with no valid
pair it raises `ValueError` before any request. `exchange url payload`
is the outcome of the one `httpx.post(auth_url, data=payload)` round
trip (`.error` for the `{"error": ...}` and unexpected-shape branches of
`__new_token`). The second component counts credential-exchange requests
issued. -/
def clientInit (client_id client_secret username password : Option String)
    (exchange : String → List (String × String) → Except String Token) :
    Except String (String × List (String × String) × Token) × Nat :=
  match initAuthConfig client_id client_secret username password with
  | none =>
      (.error "Either username and password or client_id and client_secret must be provided", 0)
  | some (url, payload) =>
      match exchange url payload with
      | .error e => (.error e, 1)
      | .ok tok => (.ok (url, payload, tok), 1)

/-- The outcome of one `bearer_token` property read. -/
structure BTResult where
  newToken : Token
  value : String
  refreshed : Bool
deriving DecidableEq

/-- The `bearer_token` property: refreshes exactly when
`time.time() - 0.5 > self.token.expiration_time`, then returns
`f"Bearer {self.token.token}"`. `fresh` is the token that
`self.__new_token()` would produce if called now. -/
def bearer_token (now : ℚ) (tok fresh : Token) : BTResult :=
  if now - 1/2 > tok.expiration_time then
    ⟨fresh, "Bearer " ++ fresh.token, true⟩
  else
    ⟨tok, "Bearer " ++ tok.token, false⟩

/-! ## Submission (`_submit_resource_type` and its `backoff` decorator) -/

/-- The classified outcome of one submission HTTP request: `ok id` for
status 200/202 whose JSON body has an `id` field, `retryable` for status
500 (`RetryableError`), `fatal` for every other outcome (`RuntimeError`
for other statuses, and the `KeyError` of `data["id"]` when a 200/202
body lacks `id`). Exception messages (f-strings over the response repr)
are not modelled. -/
inductive SubmitOutcome where
  | ok : JValue → SubmitOutcome
  | retryable : SubmitOutcome
  | fatal : SubmitOutcome

/-- One attempt of `_submit_resource_type`, classifying the HTTP response
`(status, body)` per its `match response` statement. -/
def submitAttempt (status : Nat) (body : Dict) : SubmitOutcome :=
  if status == 200 || status == 202 then
    match lookup body "id" with
    | some v => .ok v
    | none => .fatal
  else if status == 500 then
    .retryable
  else
    .fatal

/-- `@backoff.on_exception(backoff.expo, RetryableError, max_tries=3)`:
call the attempt; on `RetryableError` wait and try again, for at most
`tries` total calls, after which the last `RetryableError` propagates;
any other outcome (success or non-retryable exception) propagates at
once. `attempt k` is the outcome of the k-th request (0-based); the
second component of the result counts requests issued, starting from
`k`. The exponential (jittered) wait durations are timing behaviour and
are not modelled. -/
def retryOnRetryable (attempt : Nat → SubmitOutcome) : Nat → Nat → SubmitOutcome × Nat
  | 0, k => (.retryable, k)
  | 1, k => (attempt k, k + 1)
  | n + 2, k =>
    match attempt k with
    | .retryable => retryOnRetryable attempt (n + 1) (k + 1)
    | out => (out, k + 1)

/-- `_submit_resource_type` as decorated: up to 3 total attempts, retrying
only `RetryableError`. Returns the final outcome and the total number of
HTTP requests issued. -/
def submitWithRetry (attempt : Nat → SubmitOutcome) : SubmitOutcome × Nat :=
  retryOnRetryable attempt 3 0

/-! ## Status classification and the polling loop
(`submit_and_wait_resource`) -/

/-- The arm of `submit_and_wait_resource`'s `match check` statement that a
decoded status body selects, in source order. Python mapping patterns
test key presence and (for literal sub-patterns) value equality; capture
sub-patterns such as `"context": data` accept any value, which is why the
success arms carry raw `JValue`s. -/
inductive CheckOutcome where
  | successContext : JValue → JValue → CheckOutcome
  | successAnalysis : JValue → JValue → JValue → CheckOutcome
  | processing : CheckOutcome
  | failed : JValue → CheckOutcome
  | unrecognized : CheckOutcome

/-- Classify a decoded status-check body by the `match check` arms of
`submit_and_wait_resource`, tried in order:
`{"status": "success", "context": data, "input": _input}`, then
`{"status": "success", "options": options, "input": _input,
"analysis": analysis}`, then `{"status": "processing"}`, then
`{"status": "failed", "error": err}`, then the wildcard. -/
def classifyCheck (check : Dict) : CheckOutcome :=
  if isStr (lookup check "status") "success" then
    match lookup check "context", lookup check "input" with
    | some data, some inp => .successContext data inp
    | _, _ =>
      match lookup check "options", lookup check "input", lookup check "analysis" with
      | some opts, some inp, some ana => .successAnalysis opts inp ana
      | _, _, _ => .unrecognized
  else if isStr (lookup check "status") "processing" then
    .processing
  else if isStr (lookup check "status") "failed" then
    match lookup check "error" with
    | some err => .failed err
    | none => .unrecognized
  else
    .unrecognized

/-- The result a success arm returns: its normalized payload, or `none`
when the body selects a non-returning arm. Context shape returns
`{**data, "input": _input}`; analysis shape returns
`{**analysis, "options": options, "input": _input}`. -/
def normalizeCheck (check : Dict) : Option Dict :=
  match classifyCheck check with
  | .successContext data inp => some (setKey (mergeObj data) "input" inp)
  | .successAnalysis opts inp ana =>
      some (setKey (setKey (mergeObj ana) "options" opts) "input" inp)
  | _ => none

/-- How `submit_and_wait_resource` ends: a normalized result, or the final
`RuntimeError(f"Retried {retries} times for {max_time}s with {error=}")`
carrying the retry count, the time budget and the last observed failure
message. -/
inductive PollResult where
  | ok : Dict → PollResult
  | timeout : Nat → ℚ → JValue → PollResult

/-- A finished polling loop: its result and how many status checks
(`_check_resource_type` calls) it performed. -/
structure PollOut where
  result : PollResult
  checksPerformed : Nat

/-- The `while retries <= max_retries and time.time() < cutoff` loop of
`submit_and_wait_resource`. Since each non-returning iteration increments
`retries` by exactly 1, the retry budget is carried as structural fuel
with the invariant `fuel + retries = max_retries + 1`, so `fuel = 0` is
exactly the loop's `retries > max_retries` exit. `checks idx` is the
decoded body of the idx-th status check (0-based); `now` advances only by
the `asyncio.sleep(check_interval)` after a non-returning arm. -/
def pollLoopF (checks : Nat → Dict) (check_interval cutoff max_time : ℚ) :
    Nat → Nat → ℚ → JValue → Nat → PollOut
  | 0, retries, _, error, idx => ⟨.timeout retries max_time error, idx⟩
  | fuel + 1, retries, now, error, idx =>
    if now < cutoff then
      match classifyCheck (checks idx) with
      | .successContext data inp =>
          ⟨.ok (setKey (mergeObj data) "input" inp), idx + 1⟩
      | .successAnalysis opts inp ana =>
          ⟨.ok (setKey (setKey (mergeObj ana) "options" opts) "input" inp), idx + 1⟩
      | .processing =>
          pollLoopF checks check_interval cutoff max_time fuel (retries + 1)
            (now + check_interval) error (idx + 1)
      | .failed err =>
          pollLoopF checks check_interval cutoff max_time fuel (retries + 1)
            (now + check_interval) err (idx + 1)
      | .unrecognized =>
          pollLoopF checks check_interval cutoff max_time fuel (retries + 1)
            (now + check_interval) error (idx + 1)
    else
      ⟨.timeout retries max_time error, idx⟩

/-- The polling phase of `submit_and_wait_resource`, entered after a
successful submission (a failed submission propagates before any status
check): `retries = 0`, `error = ""`, `cutoff = time.time() + max_time`,
with `t0` the time at loop entry. -/
def submitAndWaitPoll (checks : Nat → Dict) (max_retries : Nat)
    (max_time check_interval t0 : ℚ) : PollOut :=
  pollLoopF checks check_interval (t0 + max_time) max_time
    (max_retries + 1) 0 t0 (.jstr "") 0

/-! ## Loop-unfolding helper lemmas -/

/-- Unfolding: one loop iteration on a body classified `processing`
sleeps `check_interval`, increments `retries`, and polls again. -/
lemma pollLoopF_processing_step {checks : Nat → Dict} {ci cutoff mt now : ℚ}
    {fuel retries idx : Nat} {error : JValue}
    (hlt : now < cutoff) (hcl : classifyCheck (checks idx) = .processing) :
    pollLoopF checks ci cutoff mt (fuel + 1) retries now error idx =
      pollLoopF checks ci cutoff mt fuel (retries + 1) (now + ci) error (idx + 1) := by
  conv_lhs => unfold pollLoopF
  rw [if_pos hlt, hcl]

/-- Unfolding: one loop iteration on a body classified `failed err`
records `err` as the last error, sleeps, increments `retries`, and polls
again. -/
lemma pollLoopF_failed_step {checks : Nat → Dict} {ci cutoff mt now : ℚ}
    {fuel retries idx : Nat} {error err : JValue}
    (hlt : now < cutoff) (hcl : classifyCheck (checks idx) = .failed err) :
    pollLoopF checks ci cutoff mt (fuel + 1) retries now error idx =
      pollLoopF checks ci cutoff mt fuel (retries + 1) (now + ci) err (idx + 1) := by
  conv_lhs => unfold pollLoopF
  rw [if_pos hlt, hcl]

/-- Unfolding: one loop iteration on a body classified `unrecognized`
sleeps, increments `retries`, and polls again with the error unchanged. -/
lemma pollLoopF_unrecognized_step {checks : Nat → Dict} {ci cutoff mt now : ℚ}
    {fuel retries idx : Nat} {error : JValue}
    (hlt : now < cutoff) (hcl : classifyCheck (checks idx) = .unrecognized) :
    pollLoopF checks ci cutoff mt (fuel + 1) retries now error idx =
      pollLoopF checks ci cutoff mt fuel (retries + 1) (now + ci) error (idx + 1) := by
  conv_lhs => unfold pollLoopF
  rw [if_pos hlt, hcl]

/-- Unfolding: with the retry budget exhausted (`retries > max_retries`,
i.e. zero fuel) the loop raises the timeout error carrying `retries`,
`max_time` and the last error. -/
lemma pollLoopF_fuel_out {checks : Nat → Dict} {ci cutoff mt now : ℚ}
    {retries idx : Nat} {error : JValue} :
    pollLoopF checks ci cutoff mt 0 retries now error idx =
      ⟨.timeout retries mt error, idx⟩ := rfl

/-- Unfolding: with the time budget exhausted (`now ≥ cutoff`) the loop
raises the timeout error carrying `retries`, `max_time` and the last
error, whatever fuel remains. -/
lemma pollLoopF_time_out {checks : Nat → Dict} {ci cutoff mt now : ℚ}
    {retries idx : Nat} {error : JValue} (h : ¬ now < cutoff) :
    ∀ fuel, pollLoopF checks ci cutoff mt fuel retries now error idx =
      ⟨.timeout retries mt error, idx⟩ := by
  intro fuel
  cases fuel with
  | zero => rfl
  | succ f =>
      unfold pollLoopF
      rw [if_neg h]

/-- A dict with `hasKey _ k = false` has `lookup _ k = none`. -/
lemma hasKey_false {d : Dict} {k : String} (h : hasKey d k = false) :
    lookup d k = none := by
  unfold hasKey at h
  cases hl : lookup d k with
  | none => rfl
  | some v => rw [hl] at h; simp at h

/-- A body tagged `"status": "success"` that matches neither success
pattern (context+input keys; options+input+analysis keys) selects the
wildcard arm. -/
lemma classify_success_unrecognized {check : Dict}
    (hs : isStr (lookup check "status") "success" = true)
    (h1 : lookup check "context" = none ∨ lookup check "input" = none)
    (h2 : lookup check "options" = none ∨ lookup check "input" = none ∨
          lookup check "analysis" = none) :
    classifyCheck check = .unrecognized := by
  unfold classifyCheck
  rw [if_pos hs]
  rcases hctx : lookup check "context" with _ | c <;>
  rcases hinp : lookup check "input" with _ | w <;>
  rcases hopt : lookup check "options" with _ | o <;>
  rcases hana : lookup check "analysis" with _ | a <;>
    first
      | rfl
      | (rcases h1 with h1 | h1 <;> rcases h2 with h2 | h2 | h2 <;> simp_all)

/-- All-`processing` runs: with `check_interval = 0` the loop burns its
whole fuel, adding `fuel` to both the retry count and the check count. -/
lemma pollLoopF_all_processing {cutoff mt : ℚ} (fuel : Nat) :
    ∀ (retries idx : Nat) (now : ℚ) (error : JValue), now < cutoff →
      pollLoopF (fun _ => [("status", .jstr "processing")]) 0 cutoff mt
          fuel retries now error idx =
        ⟨.timeout (retries + fuel) mt error, idx + fuel⟩ := by
  induction fuel with
  | zero => intro r i n e _; simp [pollLoopF]
  | succ f ih =>
      intro r i n e h
      conv_lhs => unfold pollLoopF
      rw [if_pos h]
      show pollLoopF (fun _ => [("status", .jstr "processing")]) 0 cutoff mt
          f (r + 1) (n + 0) e (i + 1) = _
      rw [add_zero, ih (r + 1) (i + 1) n e h]
      have h1 : r + 1 + f = r + (f + 1) := by omega
      have h2 : i + 1 + f = i + (f + 1) := by omega
      rw [h1, h2]

/-- Unfolding: `retryOnRetryable` with 3 tries left inspects the current
attempt. -/
lemma retryOnRetryable_three (attempt : Nat → SubmitOutcome) (k : Nat) :
    retryOnRetryable attempt 3 k =
      match attempt k with
      | .retryable => retryOnRetryable attempt 2 (k + 1)
      | out => (out, k + 1) := rfl

/-- Unfolding: `retryOnRetryable` with 2 tries left inspects the current
attempt. -/
lemma retryOnRetryable_two (attempt : Nat → SubmitOutcome) (k : Nat) :
    retryOnRetryable attempt 2 k =
      match attempt k with
      | .retryable => retryOnRetryable attempt 1 (k + 1)
      | out => (out, k + 1) := rfl

/-- Unfolding: the last permitted attempt propagates whatever happens. -/
lemma retryOnRetryable_one (attempt : Nat → SubmitOutcome) (k : Nat) :
    retryOnRetryable attempt 1 k = (attempt k, k + 1) := rfl

/-! ## Theorems -/

/-- Claim C1 (evidence of the code bug): with the cached token expiring
exactly at the current time — so its expiry minus the 0.5 s safety
buffer is in the past — `bearer_token` performs no refresh and returns
the stale cached token. The source's refresh condition
`time.time() - 0.5 > self.token.expiration_time` only fires strictly
more than 0.5 s AFTER expiry, the reverse of the "buffer of 0.5 seconds
for safety" its own comment describes, so the claimed invariant fails. -/
theorem C1_stale_token_returned :
    bearer_token 1 ⟨"old", 1⟩ ⟨"new", 3600⟩ = ⟨⟨"old", 1⟩, "Bearer old", false⟩
      ∧ (1 : ℚ) - 1/2 ≤ 1 := by
  constructor
  · unfold bearer_token
    rw [if_neg (by norm_num)]
    rfl
  · norm_num

/-- Claim C2, counterexample: the endpoint path segments are not
`context-checks` and `vision-analyses`. -/
theorem C2_counterexample :
    ¬ (ResourceType.value .CONTEXT = "context-checks" ∧
       ResourceType.value .VISION = "vision-analyses") := by
  decide

/-- Claim C2, amended: the two resource-kind endpoint path segments used
to build submission and status URLs are exactly `compass/contextChecks`
for the Context kind and `compass/visionAnalyses` for the Vision kind. -/
theorem C2_resource_paths (resource_id : String) :
    ResourceType.value .CONTEXT = "compass/contextChecks" ∧
    ResourceType.value .VISION = "compass/visionAnalyses" ∧
    submissionUrl .CONTEXT = "https://api.blackbird.ai/compass/contextChecks" ∧
    submissionUrl .VISION = "https://api.blackbird.ai/compass/visionAnalyses" ∧
    statusUrl .CONTEXT resource_id
      = "https://api.blackbird.ai/compass/contextChecks/" ++ resource_id ∧
    statusUrl .VISION resource_id
      = "https://api.blackbird.ai/compass/visionAnalyses/" ++ resource_id := by
  refine ⟨rfl, rfl, rfl, rfl, ?_, ?_⟩ <;> rfl

/-- Claim C7: constructing the client with neither credential mode
populated (username+password pair not both truthy, client-id+client-secret
pair not both truthy) fails with the `ValueError` configuration error, and
zero credential-exchange requests are made, whatever the exchange would
have answered. -/
theorem C7_no_credentials (client_id client_secret username password : Option String)
    (exchange : String → List (String × String) → Except String Token)
    (hup : (truthy username && truthy password) = false)
    (hcc : (truthy client_id && truthy client_secret) = false) :
    clientInit client_id client_secret username password exchange =
      (.error "Either username and password or client_id and client_secret must be provided",
       0) := by
  simp [clientInit, initAuthConfig, hup, hcc]

/-- Witness for C7: all four credentials absent. -/
theorem C7_no_credentials_witness :
    clientInit none none none none (fun _ _ => .error "unused") =
      (.error "Either username and password or client_id and client_secret must be provided",
       0) :=
  C7_no_credentials none none none none (fun _ _ => .error "unused") rfl rfl

/-- Claim C8: `bearer_token` is idempotent inside the validity window:
if the cached token's expiry minus the 0.5 s buffer is still in the
future at both call times, both calls return the identical `Bearer`
string, perform no refresh, and leave the cached token unchanged. -/
theorem C8_bearer_idempotent (tok fresh : Token) (t1 t2 : ℚ)
    (h1 : t1 < tok.expiration_time - 1/2) (h2 : t2 < tok.expiration_time - 1/2) :
    bearer_token t1 tok fresh = ⟨tok, "Bearer " ++ tok.token, false⟩ ∧
    bearer_token t2 (bearer_token t1 tok fresh).newToken fresh =
      ⟨tok, "Bearer " ++ tok.token, false⟩ := by
  have n1 : ¬ (t1 - 1/2 > tok.expiration_time) := by
    simp only [gt_iff_lt, not_lt]
    linarith
  have n2 : ¬ (t2 - 1/2 > tok.expiration_time) := by
    simp only [gt_iff_lt, not_lt]
    linarith
  have e1 : bearer_token t1 tok fresh = ⟨tok, "Bearer " ++ tok.token, false⟩ := by
    unfold bearer_token
    rw [if_neg n1]
  refine ⟨e1, ?_⟩
  rw [e1]
  unfold bearer_token
  rw [if_neg n2]

/-- Witness for C8: a token valid until time 100, read at times 0 and 1. -/
theorem C8_bearer_idempotent_witness :
    bearer_token 0 ⟨"tok", 100⟩ ⟨"fresh", 200⟩ = ⟨⟨"tok", 100⟩, "Bearer tok", false⟩ ∧
    bearer_token 1 (bearer_token 0 ⟨"tok", 100⟩ ⟨"fresh", 200⟩).newToken ⟨"fresh", 200⟩ =
      ⟨⟨"tok", 100⟩, "Bearer tok", false⟩ :=
  C8_bearer_idempotent ⟨"tok", 100⟩ ⟨"fresh", 200⟩ 0 1 (by norm_num) (by norm_num)

/-- Claim C9: when both credential pairs are supplied non-empty, the
password grant wins: the auth config is the service's own token endpoint
(`BASE_URL ++ "/compass/token"`) with body
`{username, password, grant_type: "password"}` — independent of the
client-credential pair, which is ignored. -/
theorem C9_password_precedence (client_id client_secret : Option String) (u p : String)
    (hu : u ≠ "") (hp : p ≠ "") :
    initAuthConfig client_id client_secret (some u) (some p) =
      some (BASE_URL ++ "/compass/token",
        [("username", u), ("password", p), ("grant_type", "password")]) := by
  have tu : truthy (some u) = true := by simp [truthy, hu]
  have tp : truthy (some p) = true := by simp [truthy, hp]
  simp [initAuthConfig, tu, tp]

/-- Witness for C9: both pairs populated; the password pair wins. -/
theorem C9_password_precedence_witness :
    initAuthConfig (some "cid") (some "csecret") (some "user") (some "pw") =
      some (BASE_URL ++ "/compass/token",
        [("username", "user"), ("password", "pw"), ("grant_type", "password")]) :=
  C9_password_precedence (some "cid") (some "csecret") "user" "pw"
    (by decide) (by decide)

/-- Claim C3: with `max_retries = 2`, `check_interval = 0` and a status
stub that always answers `{"status": "processing"}`, the polling phase of
`submit_and_wait_resource` performs exactly 3 status checks (1 initial +
2 retries) and then fails with the timeout error reporting `retries = 3`
(and the `max_time` budget, here the 600 s that goes with the loop's
cutoff). -/
theorem C3_poll_bound (t0 : ℚ) :
    submitAndWaitPoll (fun _ => [("status", .jstr "processing")]) 2 600 0 t0 =
      ⟨.timeout 3 600 (.jstr ""), 3⟩ := by
  unfold submitAndWaitPoll
  rw [pollLoopF_all_processing (2 + 1) 0 0 t0 (.jstr "") (by linarith)]

/-- Claim C4: normalization is exact for both success shapes. A
context-shape body `{status: "success", context: C, input: I}` yields
`{**C, input: I}`; an analysis-shape body
`{status: "success", options: O, input: J, analysis: A}` yields
`{**A, options: O, input: J}`; and the spec's two concrete examples give
exactly the listed flat mappings. -/
theorem C4_normalization (C A : Dict) (O I J : JValue) :
    normalizeCheck [("status", .jstr "success"), ("context", .jobj C), ("input", I)] =
      some (setKey C "input" I) ∧
    normalizeCheck
        [("status", .jstr "success"), ("options", O), ("input", J), ("analysis", .jobj A)] =
      some (setKey (setKey A "options" O) "input" J) ∧
    normalizeCheck
        [("status", .jstr "success"),
         ("context", .jobj [("verdict", .jstr "false"), ("score", .jnum (9/10))]),
         ("input", .jstr "claim text")] =
      some [("verdict", .jstr "false"), ("score", .jnum (9/10)),
            ("input", .jstr "claim text")] ∧
    normalizeCheck
        [("status", .jstr "success"),
         ("options", .jobj [("explain", .jbool true)]),
         ("input", .jstr "http://img"),
         ("analysis", .jobj [("fake", .jbool true)])] =
      some [("fake", .jbool true), ("options", .jobj [("explain", .jbool true)]),
            ("input", .jstr "http://img")] := by
  refine ⟨?_, ?_, ?_, ?_⟩ <;> rfl

/-- Claim C5: `_submit_resource_type` retries only `RetryableError`
(HTTP 500) and up to 3 total attempts. Any non-retryable first outcome
propagates after exactly 1 request; the stub answering 500, 500, then
200 with an id succeeds on the third attempt after exactly 3 requests;
the stub answering 404 fails non-retryably after exactly 1 request; and
no run ever issues more than 3 requests. -/
theorem C5_submit_retry (attempt : Nat → SubmitOutcome)
    (hfatal : attempt 0 = .fatal) :
    submitWithRetry attempt = (.fatal, 1) ∧
    submitWithRetry (fun k =>
        if k < 2 then submitAttempt 500 [] else submitAttempt 200 [("id", .jstr "res-1")]) =
      (.ok (.jstr "res-1"), 3) ∧
    submitAttempt 404 [] = .fatal ∧
    submitWithRetry (fun _ => submitAttempt 404 []) = (.fatal, 1) ∧
    (∀ a : Nat → SubmitOutcome, (submitWithRetry a).2 ≤ 3) := by
  refine ⟨?_, rfl, rfl, rfl, ?_⟩
  · unfold submitWithRetry
    rw [retryOnRetryable_three, hfatal]
  · intro a
    unfold submitWithRetry
    rw [retryOnRetryable_three]
    cases h0 : a 0 with
    | ok v => simp
    | fatal => simp
    | retryable =>
        rw [retryOnRetryable_two]
        cases h1 : a (0 + 1) with
        | ok v => simp
        | fatal => simp
        | retryable =>
            rw [retryOnRetryable_one]

/-- Witness for C5: a first attempt that fails non-retryably propagates
after exactly one request. -/
theorem C5_submit_retry_witness :
    submitWithRetry (fun _ => SubmitOutcome.fatal) = (.fatal, 1) :=
  (C5_submit_retry (fun _ => .fatal) rfl).1

/-- Claim C6: a status check classified `failed err` records `err` as
the last observed error, sleeps `check_interval`, increments `retries`,
and continues polling rather than failing; and when the loop exhausts
its retry budget (zero fuel, i.e. `retries > max_retries`) or its time
budget (`now ≥ cutoff`) without a success, it fails with the timeout
error carrying the retry count, the `max_time` budget, and the last
observed error. -/
theorem C6_failed_then_timeout (checks : Nat → Dict) (ci cutoff mt now now2 : ℚ)
    (fuel fl retries idx : Nat) (error err : JValue)
    (hlt : now < cutoff) (hcl : classifyCheck (checks idx) = .failed err)
    (hto : ¬ now2 < cutoff) :
    pollLoopF checks ci cutoff mt (fuel + 1) retries now error idx =
      pollLoopF checks ci cutoff mt fuel (retries + 1) (now + ci) err (idx + 1) ∧
    pollLoopF checks ci cutoff mt 0 retries now error idx =
      ⟨.timeout retries mt error, idx⟩ ∧
    pollLoopF checks ci cutoff mt fl retries now2 error idx =
      ⟨.timeout retries mt error, idx⟩ :=
  ⟨pollLoopF_failed_step hlt hcl, pollLoopF_fuel_out, pollLoopF_time_out hto fl⟩

/-- Witness for C6: a `{"status": "failed", "error": "boom"}` body with
one unit of fuel and time left, the same state with zero fuel, and the
same state past the cutoff. -/
theorem C6_failed_then_timeout_witness :
    (pollLoopF (fun _ => [("status", .jstr "failed"), ("error", .jstr "boom")])
        10 600 600 1 0 0 (.jstr "") 0 =
      pollLoopF (fun _ => [("status", .jstr "failed"), ("error", .jstr "boom")])
        10 600 600 0 1 10 (.jstr "boom") 1) ∧
    (pollLoopF (fun _ => [("status", .jstr "failed"), ("error", .jstr "boom")])
        10 600 600 0 0 0 (.jstr "") 0 =
      ⟨.timeout 0 600 (.jstr ""), 0⟩) ∧
    (pollLoopF (fun _ => [("status", .jstr "failed"), ("error", .jstr "boom")])
        10 600 600 7 0 600 (.jstr "") 0 =
      ⟨.timeout 0 600 (.jstr ""), 0⟩) :=
  C6_failed_then_timeout (fun _ => [("status", .jstr "failed"), ("error", .jstr "boom")])
    10 600 600 0 600 0 7 0 0 (.jstr "") (.jstr "boom")
    (by norm_num) rfl (by norm_num)

/-- Claim C10: a body tagged `"status": "success"` that matches neither
success pattern — the context+input key pair absent or incomplete, and
the options+input+analysis key triple absent or incomplete — is never
returned as a result: it classifies as unrecognized, normalizes to
nothing, and the loop sleeps `check_interval`, increments `retries`, and
continues polling. -/
theorem C10_unmatched_success_retries (checks : Nat → Dict) (ci cutoff mt now : ℚ)
    (fuel retries idx : Nat) (error : JValue)
    (hs : isStr (lookup (checks idx) "status") "success" = true)
    (hc : hasKey (checks idx) "context" = false ∨ hasKey (checks idx) "input" = false)
    (ha : hasKey (checks idx) "options" = false ∨ hasKey (checks idx) "input" = false ∨
          hasKey (checks idx) "analysis" = false)
    (hlt : now < cutoff) :
    classifyCheck (checks idx) = .unrecognized ∧
    normalizeCheck (checks idx) = none ∧
    pollLoopF checks ci cutoff mt (fuel + 1) retries now error idx =
      pollLoopF checks ci cutoff mt fuel (retries + 1) (now + ci) error (idx + 1) := by
  have h1 : lookup (checks idx) "context" = none ∨ lookup (checks idx) "input" = none :=
    hc.imp hasKey_false hasKey_false
  have h2 : lookup (checks idx) "options" = none ∨ lookup (checks idx) "input" = none ∨
      lookup (checks idx) "analysis" = none := by
    rcases ha with h | h | h
    · exact Or.inl (hasKey_false h)
    · exact Or.inr (Or.inl (hasKey_false h))
    · exact Or.inr (Or.inr (hasKey_false h))
  have hcl := classify_success_unrecognized hs h1 h2
  refine ⟨hcl, ?_, pollLoopF_unrecognized_step hlt hcl⟩
  unfold normalizeCheck
  rw [hcl]

/-- Witness for C10: the body `{"status": "success"}` lacking the
`input` field. -/
theorem C10_unmatched_success_retries_witness :
    classifyCheck [("status", .jstr "success")] = .unrecognized ∧
    normalizeCheck [("status", .jstr "success")] = none ∧
    pollLoopF (fun _ => [("status", .jstr "success")]) 2 1 9 1 0 0 .jnull 0 =
      pollLoopF (fun _ => [("status", .jstr "success")]) 2 1 9 0 1 2 .jnull 1 :=
  C10_unmatched_success_retries (fun _ => [("status", .jstr "success")]) 2 1 9 0 0 0 0
    .jnull rfl (Or.inr rfl) (Or.inr (Or.inl rfl)) (by norm_num)

end Blackbird
